import Mathlib

/-!
Verification development for the meal-planning backend's persistence core
(domain entities, DynamoDB mappers, and repositories).

The Python source is shallowly embedded:

* DynamoDB items (the plain-`dict` payloads the mappers produce and consume)
  are modelled by the universal value type `DVal`; an item is an association
  list `List (String × DVal)`, mirroring a Python `dict` with its key order.
* Python `float`/`Decimal` numerics are modelled by `Rat`: the source
  serializes every number through `Decimal(str(x))`, which is
  value-preserving, so quantities and ratings are exact rationals here.
* Python `date`/`datetime` values are modelled by their ISO-format strings
  (`date.fromisoformat`/`isoformat` become the identity); calendar validity
  of the strings is abstracted away, which is sound for every value that a
  domain entity can put into the store.
* Fallible Python code (`KeyError` on a missing `dict` subscript,
  `ValueError` from validation, `TypeError` from `int(None)`) is modelled by
  `Except PyErr`.  Present-but-ill-typed attribute values on which Python
  would silently produce an ill-typed entity are mapped to a `typeError`;
  no theorem below depends on such inputs.
* `datetime.now()` is passed in explicitly as the `now : String` argument of
  each `to_dynamodb_item`.
-/

set_option autoImplicit false

namespace WFD

/-- A DynamoDB attribute value as the Python mappers see it: a plain Python
value (`str`, `Decimal`, `bool`, `None`, `list`, `dict`). -/
inductive DVal where
  | str  : String → DVal
  | num  : Rat → DVal
  | bool : Bool → DVal
  | null : DVal
  | list : List DVal → DVal
  | dict : List (String × DVal) → DVal

/-- A stored item / nested record: a Python `dict` with string keys. -/
abbrev Item := List (String × DVal)

/-- Python mapper-level exceptions: `KeyError` from `d[k]` on a missing key,
`ValueError` from validation, `TypeError` from a coercion such as
`int(None)`. -/
inductive PyErr where
  | keyError : String → PyErr
  | valueError : String → PyErr
  | typeError : String → PyErr
  deriving Repr, DecidableEq

/-- `d.get(k)`: the value at key `k`, or `none` when the key is absent.
A key that is present with Python `None` yields `some DVal.null`. -/
def dlookup : Item → String → Option DVal
  | [], _ => none
  | (k, v) :: rest, key => if k = key then some v else dlookup rest key

/-- `d.get(k, default)`. -/
def dgetD (d : Item) (key : String) (default : DVal) : DVal :=
  (dlookup d key).getD default

/-- `d[k]`: raises `KeyError` when the key is absent. -/
def subscript (d : Item) (key : String) : Except PyErr DVal :=
  match dlookup d key with
  | some v => .ok v
  | none => .error (.keyError key)

/-- Python truthiness of a value: `None`, `0`, `""`, `[]`, `{}`, `False`
are falsy. -/
def truthy : DVal → Bool
  | .str s => !s.isEmpty
  | .num q => q != 0
  | .bool b => b
  | .null => false
  | .list l => !l.isEmpty
  | .dict d => !d.isEmpty

/-- Truthiness of the result of `d.get(k)`: an absent key (Python `None`)
is falsy. -/
def truthyOpt : Option DVal → Bool
  | none => false
  | some v => truthy v

/-- `float(v)` on the values reachable in this code base (`Decimal`/`bool`);
`float(None)` raises `TypeError`. -/
def pyFloat : DVal → Except PyErr Rat
  | .num q => .ok q
  | .bool b => .ok (if b then 1 else 0)
  | _ => .error (.typeError "float")

/-- `int(v)`: truncation toward zero of a `Decimal`; `int(None)` raises
`TypeError`. -/
def pyInt : DVal → Except PyErr Int
  | .num q => .ok (q.num.tdiv q.den)
  | .bool b => .ok (if b then 1 else 0)
  | _ => .error (.typeError "int")

/-- A value used as a `str` field of an entity.  Python performs no check
here; the embedding is defined on well-typed values. -/
def asStr : DVal → Except PyErr String
  | .str s => .ok s
  | _ => .error (.typeError "str")

/-- A value used as a `bool` field of an entity. -/
def asBool : DVal → Except PyErr Bool
  | .bool b => .ok b
  | _ => .error (.typeError "bool")

/-- A value used as a `list` to iterate over. -/
def asList : DVal → Except PyErr (List DVal)
  | .list l => .ok l
  | _ => .error (.typeError "list")

/-- A value used as a nested `dict`. -/
def asDict : DVal → Except PyErr Item
  | .dict d => .ok d
  | _ => .error (.typeError "dict")

/-- A value used as a `list[str]` field of an entity. -/
def asStrList (v : DVal) : Except PyErr (List String) := do
  let l ← asList v
  l.mapM asStr

/-- An `Optional[str]` field read via `d.get(k)`: absent or `None` becomes
`none`. -/
def asOptStr : Option DVal → Except PyErr (Option String)
  | none => .ok none
  | some .null => .ok none
  | some (.str s) => .ok (some s)
  | some _ => .error (.typeError "optional str")

/-- A Python `date`, modelled as its ISO-format string. -/
abbrev PyDate := String

namespace DateTimeMapper

/-- `to_dynamodb_date`: `None` stays `None`, a date becomes its ISO string. -/
def to_dynamodb_date : Option PyDate → DVal
  | none => .null
  | some d => .str d

/-- `from_dynamodb_date`: `None` or a non-`str` value yields `None`,
a string parses back to a date. -/
def from_dynamodb_date : Option DVal → Option PyDate
  | some (.str s) => some s
  | _ => none

/-- `to_dynamodb_datetime` applied to `datetime.now()`: always a string. -/
def to_dynamodb_datetime (now : String) : DVal := .str now

end DateTimeMapper

/-! ## Domain entities (`app/domain/entities`) -/

/-- `Ingredient` (frozen dataclass): name, quantity, unit, optional notes. -/
structure Ingredient where
  name : String
  quantity : Rat
  unit : String
  notes : Option String := none
  deriving Repr, DecidableEq

/-- `Ingredient.scale`: multiply the quantity by a factor. -/
def Ingredient.scale (ing : Ingredient) (factor : Rat) : Ingredient :=
  { name := ing.name, quantity := ing.quantity * factor, unit := ing.unit,
    notes := ing.notes }

/-- `Recipe` dataclass fields. -/
structure Recipe where
  id : String
  title : String
  description : String
  servings : Int
  prep_time_minutes : Int
  cook_time_minutes : Int
  ingredients : List Ingredient
  instructions : List String
  dietary_tags : List String := []
  cuisine : String := "other"
  difficulty : String := "medium"
  protein_type : String := "none"
  image_url : Option String := none
  source_url : Option String := none
  rating : Option Rat := none
  deriving Repr, DecidableEq

/-- `Recipe.__post_init__`: constructing a `Recipe` raises `ValueError`
unless `servings ≥ 1`. -/
def Recipe.post_init (r : Recipe) : Except PyErr Recipe :=
  if r.servings < 1 then .error (.valueError "Servings must be at least 1")
  else .ok r

/-- `UserProfile` dataclass fields (no validation in the source). -/
structure UserProfile where
  id : String
  name : String
  household_size : Int := 2
  dietary_restrictions : List String := []
  disliked_ingredients : List String := []
  cuisine_preferences : List String := []
  max_prep_time_minutes : Option Int := none
  max_cook_time_minutes : Option Int := none
  skill_level : String := "intermediate"
  avoid_protein_types : List String := []
  deriving Repr, DecidableEq

/-- `MealSlot` dataclass fields. -/
structure MealSlot where
  date : PyDate
  recipe_id : String
  servings : Int
  notes : Option String := none
  deriving Repr, DecidableEq

/-- `MealSlot.__post_init__`: raises `ValueError` unless `servings ≥ 1`. -/
def MealSlot.post_init (m : MealSlot) : Except PyErr MealSlot :=
  if m.servings < 1 then .error (.valueError "Servings must be at least 1")
  else .ok m

/-- `MealPlan` dataclass fields. -/
structure MealPlan where
  id : String
  user_id : String
  week_start_date : PyDate
  meals : List MealSlot := []
  created_at : Option PyDate := none
  is_active : Bool := true
  deriving Repr, DecidableEq

/-- `GroceryItem` dataclass fields. -/
structure GroceryItem where
  name : String
  quantity : Rat
  unit : String
  category : String := "other"
  recipe_sources : List String := []
  is_purchased : Bool := false
  notes : Option String := none
  deriving Repr, DecidableEq

/-- `GroceryList` dataclass fields. -/
structure GroceryList where
  id : String
  meal_plan_id : String
  items : List GroceryItem := []
  created_at : Option PyDate := none
  week_start_date : Option PyDate := none
  deriving Repr, DecidableEq

/-- `Feedback` dataclass fields. -/
structure Feedback where
  id : String
  user_id : String
  recipe_id : String
  rating : Int
  would_make_again : Bool
  meal_plan_id : Option String := none
  notes : Option String := none
  cooked_date : Option PyDate := none
  created_at : Option PyDate := none
  deriving Repr, DecidableEq

/-- `Feedback.__post_init__`: raises `ValueError` unless `1 ≤ rating ≤ 5`. -/
def Feedback.post_init (f : Feedback) : Except PyErr Feedback :=
  if 1 ≤ f.rating ∧ f.rating ≤ 5 then .ok f
  else .error (.valueError "Rating must be between 1 and 5")

/-! ## Entity methods used by the claims -/

/-- `Recipe.scale`: validate the target, return `self` unchanged when the
serving count is unchanged, otherwise scale every ingredient by
`new_servings / servings` (the resulting `Recipe(...)` call re-runs
`__post_init__`). -/
def Recipe.scale (r : Recipe) (new_servings : Int) : Except PyErr Recipe :=
  if new_servings < 1 then .error (.valueError "Servings must be at least 1")
  else if r.servings = 0 then .error (.valueError "Cannot scale recipe with 0 servings")
  else if new_servings = r.servings then .ok r
  else
    Recipe.post_init
      { r with
        servings := new_servings,
        ingredients := r.ingredients.map
          (fun ing => ing.scale ((new_servings : Rat) / (r.servings : Rat))) }

/-- Python's `str.lower()` (ASCII case folding, which is all the entities
use), applied character by character. -/
def pyLower (s : String) : String := ⟨s.data.map Char.toLower⟩

/-- The loop body of `GroceryList.consolidate_item`: walk the items; update
the first one whose lowercased name and (case-sensitive) unit match, adding
the quantity and appending the recipe id when absent.  `none` means no item
matched. -/
def consolidateInto (name_lower : String) (quantity : Rat) (unit : String)
    (recipe_id : String) : List GroceryItem → Option (List GroceryItem)
  | [] => none
  | item :: rest =>
    if pyLower item.name = name_lower ∧ item.unit = unit then
      some ({ item with
              quantity := item.quantity + quantity,
              recipe_sources :=
                if recipe_id ∈ item.recipe_sources then item.recipe_sources
                else item.recipe_sources ++ [recipe_id] } :: rest)
    else
      match consolidateInto name_lower quantity unit recipe_id rest with
      | some rest2 => some (item :: rest2)
      | none => none

/-- `GroceryList.consolidate_item`: merge into the first matching item, or
append a fresh `GroceryItem(name, quantity, unit, recipe_sources=[recipe_id])`. -/
def GroceryList.consolidate_item (gl : GroceryList) (name : String) (quantity : Rat)
    (unit : String) (recipe_id : String) : GroceryList :=
  match consolidateInto (pyLower name) quantity unit recipe_id gl.items with
  | some items2 => { gl with items := items2 }
  | none =>
    { gl with items := gl.items ++
        [{ name := name, quantity := quantity, unit := unit,
           recipe_sources := [recipe_id] }] }

/-- `GroceryList.total_items`. -/
def GroceryList.total_items (gl : GroceryList) : Nat := gl.items.length

/-- `GroceryList.purchased_count`: `sum(1 for item in self.items if item.is_purchased)`. -/
def GroceryList.purchased_count (gl : GroceryList) : Nat :=
  (gl.items.filter (fun item => item.is_purchased)).length

/-- `GroceryList.completion_percentage`: `0.0` for an empty list, otherwise
`purchased_count / total_items * 100`. -/
def GroceryList.completion_percentage (gl : GroceryList) : Rat :=
  if gl.total_items = 0 then 0
  else ((gl.purchased_count : Rat) / (gl.total_items : Rat)) * 100

/-- `MealPlan.remove_meal`: drop every slot at the given date; report whether
the list shrank.  Returns the flag together with the updated plan (the Python
method mutates `self.meals`). -/
def MealPlan.remove_meal (mp : MealPlan) (meal_date : PyDate) : Bool × MealPlan :=
  let new_meals := mp.meals.filter (fun meal => meal.date ≠ meal_date)
  (new_meals.length < mp.meals.length, { mp with meals := new_meals })

/-! ## Mappers (`infrastructure/persistence/dynamodb/mappers.py`)

Each `to_dynamodb_item` takes the stamped `datetime.now()` as `now`. -/

/-- An `Optional[str]` entity field stored as-is: `None` becomes `null`. -/
def optStrVal : Option String → DVal
  | none => .null
  | some s => .str s

/-- `Decimal(str(x)) if x else None` for an `Optional[float]` field:
`None` and `0.0` are falsy and serialize as `null`. -/
def optNumTruthy : Option Rat → DVal
  | none => .null
  | some q => if q = 0 then .null else .num q

/-- `Decimal(str(x)) if x else None` for an `Optional[int]` field:
`None` and `0` are falsy and serialize as `null`. -/
def optIntTruthy : Option Int → DVal
  | none => .null
  | some n => if n = 0 then .null else .num (n : Rat)

namespace RecipeMapper

/-- The per-ingredient sub-record built by `RecipeMapper.to_dynamodb_item`. -/
def ingredientRecord (ing : Ingredient) : DVal :=
  .dict [("name", .str ing.name), ("quantity", .num ing.quantity),
         ("unit", .str ing.unit), ("notes", optStrVal ing.notes)]

/-- `RecipeMapper.to_dynamodb_item`. -/
def to_dynamodb_item (recipe : Recipe) (now : String) : Item :=
  [("PK", .str ("RECIPE#" ++ recipe.id)),
   ("SK", .str "METADATA"),
   ("GSI1PK", .str "RECIPE#ALL"),
   ("GSI1SK", .str recipe.title),
   ("EntityType", .str "Recipe"),
   ("Data", .dict
     [("id", .str recipe.id),
      ("title", .str recipe.title),
      ("description", .str recipe.description),
      ("servings", .num (recipe.servings : Rat)),
      ("prep_time_minutes", .num (recipe.prep_time_minutes : Rat)),
      ("cook_time_minutes", .num (recipe.cook_time_minutes : Rat)),
      ("ingredients", .list (recipe.ingredients.map ingredientRecord)),
      ("instructions", .list (recipe.instructions.map .str)),
      ("dietary_tags", .list (recipe.dietary_tags.map .str)),
      ("cuisine", .str recipe.cuisine),
      ("difficulty", .str recipe.difficulty),
      ("protein_type", .str recipe.protein_type),
      ("image_url", optStrVal recipe.image_url),
      ("source_url", optStrVal recipe.source_url),
      ("rating", optNumTruthy recipe.rating)]),
   ("CreatedAt", DateTimeMapper.to_dynamodb_datetime now),
   ("UpdatedAt", DateTimeMapper.to_dynamodb_datetime now)]

/-- One ingredient of `RecipeMapper.from_dynamodb_item`: required sub-fields
are read with `ing["..."]` (a `KeyError` when missing); `notes` with
`ing.get("notes")`. -/
def ingredientFromRecord (v : DVal) : Except PyErr Ingredient := do
  let ing ← asDict v
  let name ← subscript ing "name" >>= asStr
  let quantity ← subscript ing "quantity" >>= pyFloat
  let u ← subscript ing "unit" >>= asStr
  let notes ← asOptStr (dlookup ing "notes")
  pure { name := name, quantity := quantity, unit := u, notes := notes }

/-- `RecipeMapper.from_dynamodb_item`. -/
def from_dynamodb_item (item : Item) : Except PyErr Recipe := do
  let data ← asDict (dgetD item "Data" (.dict []))
  let ingredients_data ← asList (dgetD data "ingredients" (.list []))
  let ingredients ← ingredients_data.mapM ingredientFromRecord
  let id ← asStr (dgetD data "id" (.str ""))
  let title ← asStr (dgetD data "title" (.str ""))
  let description ← asStr (dgetD data "description" (.str ""))
  let servings ← pyInt (dgetD data "servings" (.num 1))
  let prep_time_minutes ← pyInt (dgetD data "prep_time_minutes" (.num 0))
  let cook_time_minutes ← pyInt (dgetD data "cook_time_minutes" (.num 0))
  let instructions ← asStrList (dgetD data "instructions" (.list []))
  let dietary_tags ← asStrList (dgetD data "dietary_tags" (.list []))
  let cuisine ← asStr (dgetD data "cuisine" (.str ""))
  let difficulty ← asStr (dgetD data "difficulty" (.str ""))
  let protein_type ← asStr (dgetD data "protein_type" (.str ""))
  let image_url ← asOptStr (dlookup data "image_url")
  let source_url ← asOptStr (dlookup data "source_url")
  let rating ←
    if truthyOpt (dlookup data "rating") then do
      let v ← subscript data "rating"
      let q ← pyFloat v
      pure (some q)
    else pure none
  Recipe.post_init
    { id := id, title := title, description := description, servings := servings,
      prep_time_minutes := prep_time_minutes, cook_time_minutes := cook_time_minutes,
      ingredients := ingredients, instructions := instructions,
      dietary_tags := dietary_tags, cuisine := cuisine, difficulty := difficulty,
      protein_type := protein_type, image_url := image_url, source_url := source_url,
      rating := rating }

end RecipeMapper

namespace UserProfileMapper

/-- `UserProfileMapper.to_dynamodb_item`. -/
def to_dynamodb_item (user : UserProfile) (now : String) : Item :=
  [("PK", .str ("USER#" ++ user.id)),
   ("SK", .str "PROFILE"),
   ("EntityType", .str "UserProfile"),
   ("Data", .dict
     [("id", .str user.id),
      ("name", .str user.name),
      ("household_size", .num (user.household_size : Rat)),
      ("dietary_restrictions", .list (user.dietary_restrictions.map .str)),
      ("disliked_ingredients", .list (user.disliked_ingredients.map .str)),
      ("cuisine_preferences", .list (user.cuisine_preferences.map .str)),
      ("skill_level", .str user.skill_level),
      ("max_prep_time_minutes", optIntTruthy user.max_prep_time_minutes),
      ("max_cook_time_minutes", optIntTruthy user.max_cook_time_minutes),
      ("avoid_protein_types", .list (user.avoid_protein_types.map .str))]),
   ("CreatedAt", DateTimeMapper.to_dynamodb_datetime now),
   ("UpdatedAt", DateTimeMapper.to_dynamodb_datetime now)]

/-- `UserProfileMapper.from_dynamodb_item`. -/
def from_dynamodb_item (item : Item) : Except PyErr UserProfile := do
  let data ← asDict (dgetD item "Data" (.dict []))
  let id ← asStr (dgetD data "id" (.str ""))
  let name ← asStr (dgetD data "name" (.str ""))
  let household_size ← pyInt (dgetD data "household_size" (.num 2))
  let dietary_restrictions ← asStrList (dgetD data "dietary_restrictions" (.list []))
  let disliked_ingredients ← asStrList (dgetD data "disliked_ingredients" (.list []))
  let cuisine_preferences ← asStrList (dgetD data "cuisine_preferences" (.list []))
  let skill_level ← asStr (dgetD data "skill_level" (.str "intermediate"))
  let max_prep_time_minutes ←
    if truthyOpt (dlookup data "max_prep_time_minutes") then do
      let v ← subscript data "max_prep_time_minutes"
      let n ← pyInt v
      pure (some n)
    else pure none
  let max_cook_time_minutes ←
    if truthyOpt (dlookup data "max_cook_time_minutes") then do
      let v ← subscript data "max_cook_time_minutes"
      let n ← pyInt v
      pure (some n)
    else pure none
  let avoid_protein_types ← asStrList (dgetD data "avoid_protein_types" (.list []))
  pure { id := id, name := name, household_size := household_size,
         dietary_restrictions := dietary_restrictions,
         disliked_ingredients := disliked_ingredients,
         cuisine_preferences := cuisine_preferences,
         max_prep_time_minutes := max_prep_time_minutes,
         max_cook_time_minutes := max_cook_time_minutes,
         skill_level := skill_level, avoid_protein_types := avoid_protein_types }

end UserProfileMapper

namespace MealPlanMapper

/-- The per-meal sub-record built by `MealPlanMapper.to_dynamodb_item`. -/
def mealRecord (meal : MealSlot) : DVal :=
  .dict [("date", DateTimeMapper.to_dynamodb_date (some meal.date)),
         ("recipe_id", .str meal.recipe_id),
         ("servings", .num (meal.servings : Rat)),
         ("notes", optStrVal meal.notes)]

/-- `MealPlanMapper.to_dynamodb_item`. -/
def to_dynamodb_item (meal_plan : MealPlan) (now : String) : Item :=
  [("PK", .str ("USER#" ++ meal_plan.user_id)),
   ("SK", .str ("MEALPLAN#" ++ meal_plan.id)),
   ("GSI1PK", .str ("MEALPLAN#" ++ meal_plan.id)),
   ("GSI1SK", DateTimeMapper.to_dynamodb_date (some meal_plan.week_start_date)),
   ("EntityType", .str "MealPlan"),
   ("Data", .dict
     [("id", .str meal_plan.id),
      ("user_id", .str meal_plan.user_id),
      ("week_start_date", DateTimeMapper.to_dynamodb_date (some meal_plan.week_start_date)),
      ("meals", .list (meal_plan.meals.map mealRecord)),
      ("is_active", .bool meal_plan.is_active),
      ("created_at", DateTimeMapper.to_dynamodb_date meal_plan.created_at)]),
   ("CreatedAt", DateTimeMapper.to_dynamodb_datetime now),
   ("UpdatedAt", DateTimeMapper.to_dynamodb_datetime now)]

/-- One meal of `MealPlanMapper.from_dynamodb_item`: `meal["date"]` raises
`KeyError` when the key is missing; a present-but-`None` date raises
`ValueError`; `MealSlot(...)` re-runs its validation. -/
def mealFromRecord (v : DVal) : Except PyErr MealSlot := do
  let meal ← asDict v
  let dv ← subscript meal "date"
  match DateTimeMapper.from_dynamodb_date (some dv) with
  | none => .error (.valueError "Meal date is required but was None")
  | some meal_date => do
    let recipe_id ← subscript meal "recipe_id" >>= asStr
    let servings ← subscript meal "servings" >>= pyInt
    let notes ← asOptStr (dlookup meal "notes")
    MealSlot.post_init
      { date := meal_date, recipe_id := recipe_id, servings := servings, notes := notes }

/-- `MealPlanMapper.from_dynamodb_item`. -/
def from_dynamodb_item (item : Item) : Except PyErr MealPlan := do
  let data ← asDict (dgetD item "Data" (.dict []))
  let meals_data ← asList (dgetD data "meals" (.list []))
  let meals ← meals_data.mapM mealFromRecord
  let week_start ←
    match DateTimeMapper.from_dynamodb_date (dlookup data "week_start_date") with
    | none => .error (.valueError "week_start_date is required but was None")
    | some w => pure w
  let id ← asStr (dgetD data "id" (.str ""))
  let user_id ← asStr (dgetD data "user_id" (.str ""))
  let is_active ← asBool (dgetD data "is_active" (.bool true))
  let created_at := DateTimeMapper.from_dynamodb_date (dlookup data "created_at")
  pure { id := id, user_id := user_id, week_start_date := week_start, meals := meals,
         is_active := is_active, created_at := created_at }

end MealPlanMapper

namespace FeedbackMapper

/-- `FeedbackMapper.to_dynamodb_item` (`GSI1SK` is stamped with `now` for
sorting by recency). -/
def to_dynamodb_item (feedback : Feedback) (now : String) : Item :=
  [("PK", .str ("USER#" ++ feedback.user_id)),
   ("SK", .str ("FEEDBACK#" ++ feedback.id)),
   ("GSI1PK", .str ("RECIPE#" ++ feedback.recipe_id)),
   ("GSI1SK", DateTimeMapper.to_dynamodb_datetime now),
   ("EntityType", .str "Feedback"),
   ("Data", .dict
     [("id", .str feedback.id),
      ("user_id", .str feedback.user_id),
      ("recipe_id", .str feedback.recipe_id),
      ("meal_plan_id", optStrVal feedback.meal_plan_id),
      ("cooked_date", DateTimeMapper.to_dynamodb_date feedback.cooked_date),
      ("rating", .num (feedback.rating : Rat)),
      ("would_make_again", .bool feedback.would_make_again),
      ("notes", optStrVal feedback.notes),
      ("created_at", DateTimeMapper.to_dynamodb_date feedback.created_at)]),
   ("CreatedAt", DateTimeMapper.to_dynamodb_datetime now),
   ("UpdatedAt", DateTimeMapper.to_dynamodb_datetime now)]

/-- `FeedbackMapper.from_dynamodb_item`. -/
def from_dynamodb_item (item : Item) : Except PyErr Feedback := do
  let data ← asDict (dgetD item "Data" (.dict []))
  let id ← asStr (dgetD data "id" (.str ""))
  let user_id ← asStr (dgetD data "user_id" (.str ""))
  let recipe_id ← asStr (dgetD data "recipe_id" (.str ""))
  let meal_plan_id ← asOptStr (dlookup data "meal_plan_id")
  let cooked_date := DateTimeMapper.from_dynamodb_date (dlookup data "cooked_date")
  let rating ← pyInt (dgetD data "rating" (.num 3))
  let would_make_again ← asBool (dgetD data "would_make_again" (.bool false))
  let notes ← asOptStr (dlookup data "notes")
  let created_at := DateTimeMapper.from_dynamodb_date (dlookup data "created_at")
  Feedback.post_init
    { id := id, user_id := user_id, recipe_id := recipe_id, rating := rating,
      would_make_again := would_make_again, meal_plan_id := meal_plan_id,
      notes := notes, cooked_date := cooked_date, created_at := created_at }

end FeedbackMapper

namespace GroceryListMapper

/-- The per-item sub-record built by `GroceryListMapper.to_dynamodb_item`. -/
def groceryItemRecord (item : GroceryItem) : DVal :=
  .dict [("name", .str item.name),
         ("quantity", .num item.quantity),
         ("unit", .str item.unit),
         ("category", .str item.category),
         ("recipe_sources", .list (item.recipe_sources.map .str)),
         ("is_purchased", .bool item.is_purchased),
         ("notes", optStrVal item.notes)]

/-- `GroceryListMapper.to_dynamodb_item`. -/
def to_dynamodb_item (grocery_list : GroceryList) (now : String) : Item :=
  [("PK", .str ("MEALPLAN#" ++ grocery_list.meal_plan_id)),
   ("SK", .str ("GROCERYLIST#" ++ grocery_list.id)),
   ("EntityType", .str "GroceryList"),
   ("Data", .dict
     [("id", .str grocery_list.id),
      ("meal_plan_id", .str grocery_list.meal_plan_id),
      ("items", .list (grocery_list.items.map groceryItemRecord)),
      ("created_at", DateTimeMapper.to_dynamodb_date grocery_list.created_at),
      ("week_start_date", DateTimeMapper.to_dynamodb_date grocery_list.week_start_date)]),
   ("CreatedAt", DateTimeMapper.to_dynamodb_datetime now),
   ("UpdatedAt", DateTimeMapper.to_dynamodb_datetime now)]

/-- One grocery item of `GroceryListMapper.from_dynamodb_item`. -/
def groceryItemFromRecord (v : DVal) : Except PyErr GroceryItem := do
  let grocery_item ← asDict v
  let name ← subscript grocery_item "name" >>= asStr
  let quantity ← subscript grocery_item "quantity" >>= pyFloat
  let u ← subscript grocery_item "unit" >>= asStr
  let category ← asStr (dgetD grocery_item "category" (.str "other"))
  let recipe_sources ← asStrList (dgetD grocery_item "recipe_sources" (.list []))
  let is_purchased ← asBool (dgetD grocery_item "is_purchased" (.bool false))
  let notes ← asOptStr (dlookup grocery_item "notes")
  pure { name := name, quantity := quantity, unit := u, category := category,
         recipe_sources := recipe_sources, is_purchased := is_purchased, notes := notes }

/-- `GroceryListMapper.from_dynamodb_item`. -/
def from_dynamodb_item (item : Item) : Except PyErr GroceryList := do
  let data ← asDict (dgetD item "Data" (.dict []))
  let items_data ← asList (dgetD data "items" (.list []))
  let items ← items_data.mapM groceryItemFromRecord
  let id ← asStr (dgetD data "id" (.str ""))
  let meal_plan_id ← asStr (dgetD data "meal_plan_id" (.str ""))
  let created_at := DateTimeMapper.from_dynamodb_date (dlookup data "created_at")
  let week_start_date := DateTimeMapper.from_dynamodb_date (dlookup data "week_start_date")
  pure { id := id, meal_plan_id := meal_plan_id, items := items,
         created_at := created_at, week_start_date := week_start_date }

end GroceryListMapper

/-! ## Store model (`infrastructure/persistence/dynamodb/*_repository.py`)

The DynamoDB table is modelled as the list of its items, in store-returned
order.  Point reads, puts and deletes address a row by its string `(PK, SK)`
attributes; queries and scans filter the rows.  For the state-holding
repository operations (`exists`/`delete`/`get_active_by_user`) a query or
scan returns its complete result set in one response; the pagination
behaviour of multi-page reads is modelled separately below by functions over
the page sequence a store returns. -/

structure Store where
  rows : List Item

/-- The string `(PK, SK)` of a row; every row written through `save` has
one. -/
def rowKey (it : Item) : Option (String × String) :=
  match dlookup it "PK", dlookup it "SK" with
  | some (.str p), some (.str s) => some (p, s)
  | _, _ => none

/-- Does a row carry exactly this string primary key? -/
def keyMatches (pk sk : String) (it : Item) : Bool :=
  rowKey it == some (pk, sk)

/-- `get_item(Key={"PK": pk, "SK": sk})`: the first row with that key. -/
def pointGet (st : Store) (pk sk : String) : Option Item :=
  st.rows.find? (keyMatches pk sk)

/-- `delete_item(Key={"PK": pk, "SK": sk})`. -/
def delete_item (st : Store) (pk sk : String) : Store :=
  ⟨st.rows.filter (fun it => !keyMatches pk sk it)⟩

/-- A GSI1 query `GSI1PK = :key`: rows projected into the index under that
partition key, in store-returned order. -/
def queryGSI (st : Store) (key : String) : List Item :=
  st.rows.filter (fun it =>
    match dlookup it "GSI1PK" with
    | some (.str p) => p == key
    | _ => false)

/-- DynamoDB's `begins_with` on strings (character-wise prefix test). -/
def begins_with (s pre : String) : Bool := pre.data.isPrefixOf s.data

/-- A primary-key query `PK = :pk AND begins_with(SK, :pre)`. -/
def queryBeginsWith (st : Store) (pk pre : String) : List Item :=
  st.rows.filter (fun it =>
    match dlookup it "PK", dlookup it "SK" with
    | some (.str p), some (.str s) => p == pk && begins_with s pre
    | _, _ => false)

/-- The scan filter `attribute_exists(Data) AND Data.id = :id` used by the
feedback and grocery-list repositories. -/
def scanDataId (st : Store) (idv : String) : List Item :=
  st.rows.filter (fun it =>
    match dlookup it "Data" with
    | some (.dict d) =>
      match dlookup d "id" with
      | some (.str s) => s == idv
      | _ => false
    | _ => false)

/-- `delete_item(Key={"PK": item["PK"], "SK": item["SK"]})` for a located
row.  Rows reachable through `save` always carry string keys; the fallback
branch for a keyless row is inert. -/
def delete_located (st : Store) (it : Item) : Store :=
  match rowKey it with
  | some (p, s) => delete_item st p s
  | none => st

namespace DynamoDBRecipeRepository

/-- `DynamoDBRecipeRepository.exists`: a point lookup at
`(RECIPE#<id>, METADATA)`. -/
def exists_q (st : Store) (recipe_id : String) : Bool :=
  (pointGet st ("RECIPE#" ++ recipe_id) "METADATA").isSome

/-- `DynamoDBRecipeRepository.delete`: check existence, then delete by
primary key.  Returns the flag and the resulting store state. -/
def delete (st : Store) (recipe_id : String) : Bool × Store :=
  if !exists_q st recipe_id then (false, st)
  else (true, delete_item st ("RECIPE#" ++ recipe_id) "METADATA")

/-- `DynamoDBRecipeRepository.get_all` as a function of the successive query
responses: `pages[i]` is the `Items` of response `i`, and a response carries
a `LastEvaluatedKey` exactly when further pages follow.  The source
processes the first response and then loops while a `LastEvaluatedKey` is
present, appending the mapped recipes of every page. -/
def get_all : List (List Item) → List Recipe → Except PyErr (List Recipe)
  | [], recipes => .ok recipes
  | page :: rest, recipes => do
    let mapped ← page.mapM RecipeMapper.from_dynamodb_item
    get_all rest (recipes ++ mapped)

end DynamoDBRecipeRepository

namespace DynamoDBUserRepository

/-- `DynamoDBUserRepository.exists`: a point lookup at
`(USER#<id>, PROFILE)`. -/
def exists_q (st : Store) (user_id : String) : Bool :=
  (pointGet st ("USER#" ++ user_id) "PROFILE").isSome

/-- `DynamoDBUserRepository.delete`. -/
def delete (st : Store) (user_id : String) : Bool × Store :=
  if !exists_q st user_id then (false, st)
  else (true, delete_item st ("USER#" ++ user_id) "PROFILE")

end DynamoDBUserRepository

namespace DynamoDBMealPlanRepository

/-- `DynamoDBMealPlanRepository.exists`: a GSI1 query for
`MEALPLAN#<id>` with a non-empty result. -/
def exists_q (st : Store) (plan_id : String) : Bool :=
  !(queryGSI st ("MEALPLAN#" ++ plan_id)).isEmpty

/-- `DynamoDBMealPlanRepository.delete`: check existence, locate the row by
the GSI1 query, then delete it by its own `(PK, SK)`. -/
def delete (st : Store) (plan_id : String) : Bool × Store :=
  if !exists_q st plan_id then (false, st)
  else
    match queryGSI st ("MEALPLAN#" ++ plan_id) with
    | [] => (false, st)
    | it :: _ => (true, delete_located st it)

/-- The filtering loop of `get_active_by_user`: map each row and return the
first mapped plan whose `is_active` flag is true (a mapper error
propagates). -/
def firstActive : List Item → Except PyErr (Option MealPlan)
  | [] => .ok none
  | it :: rest => do
    let meal_plan ← MealPlanMapper.from_dynamodb_item it
    if meal_plan.is_active then pure (some meal_plan) else firstActive rest

/-- `DynamoDBMealPlanRepository.get_active_by_user`: query the user's
`MEALPLAN#` prefix and return the first active plan.  (The source inspects
only the first response page; in this store model the query returns its
complete result set.) -/
def get_active_by_user (st : Store) (user_id : String) : Except PyErr (Option MealPlan) :=
  firstActive (queryBeginsWith st ("USER#" ++ user_id) "MEALPLAN#")

end DynamoDBMealPlanRepository

namespace DynamoDBFeedbackRepository

/-- `DynamoDBFeedbackRepository.exists`: a filtered scan on `Data.id`
(single response in this store model). -/
def exists_q (st : Store) (feedback_id : String) : Bool :=
  !(scanDataId st feedback_id).isEmpty

/-- `DynamoDBFeedbackRepository.delete`: check existence, locate by the
scan, delete the first match by its `(PK, SK)`. -/
def delete (st : Store) (feedback_id : String) : Bool × Store :=
  if !exists_q st feedback_id then (false, st)
  else
    match scanDataId st feedback_id with
    | [] => (false, st)
    | it :: _ => (true, delete_located st it)

/-- `DynamoDBFeedbackRepository.get_by_id` as a function of the successive
scan responses (`pages[i]` is the `Items` of response `i`).  The source
issues one scan and never follows `LastEvaluatedKey`: it inspects only
`pages[0]`, returns `None` when that page has no items, and otherwise maps
the first item of that page. -/
def get_by_id : List (List Item) → Except PyErr (Option Feedback)
  | [] => .ok none
  | first :: _ =>
    match first with
    | [] => .ok none
    | it :: _ => do
      let fb ← FeedbackMapper.from_dynamodb_item it
      pure (some fb)

/-- `DynamoDBFeedbackRepository.get_by_user` as a function of the successive
query responses; like `get_all` it loops until no `LastEvaluatedKey`
remains. -/
def get_by_user : List (List Item) → List Feedback → Except PyErr (List Feedback)
  | [], feedback_list => .ok feedback_list
  | page :: rest, feedback_list => do
    let mapped ← page.mapM FeedbackMapper.from_dynamodb_item
    get_by_user rest (feedback_list ++ mapped)

/-- `DynamoDBFeedbackRepository.get_by_recipe` as a function of the
successive GSI1 query responses (`GSI1PK = RECIPE#<recipeId>`); it has the
same looping shape as `get_by_user`: process the first response, then keep
querying while a `LastEvaluatedKey` remains. -/
def get_by_recipe : List (List Item) → List Feedback → Except PyErr (List Feedback)
  | [], feedback_list => .ok feedback_list
  | page :: rest, feedback_list => do
    let mapped ← page.mapM FeedbackMapper.from_dynamodb_item
    get_by_recipe rest (feedback_list ++ mapped)

end DynamoDBFeedbackRepository

namespace DynamoDBGroceryListRepository

/-- `DynamoDBGroceryListRepository.exists`: a filtered scan on `Data.id`. -/
def exists_q (st : Store) (list_id : String) : Bool :=
  !(scanDataId st list_id).isEmpty

/-- `DynamoDBGroceryListRepository.delete`. -/
def delete (st : Store) (list_id : String) : Bool × Store :=
  if !exists_q st list_id then (false, st)
  else
    match scanDataId st list_id with
    | [] => (false, st)
    | it :: _ => (true, delete_located st it)

end DynamoDBGroceryListRepository

end WFD

/-! ## Helper lemmas -/

namespace WFD

@[simp] lemma ok_bind {α β : Type} (a : α) (f : α → Except PyErr β) :
    (Except.ok a >>= f) = f a := rfl

@[simp] lemma error_bind {α β : Type} (e : PyErr) (f : α → Except PyErr β) :
    ((Except.error e : Except PyErr α) >>= f) = .error e := rfl

@[simp] lemma pure_eq_ok {α : Type} (a : α) : (pure a : Except PyErr α) = .ok a := rfl

@[simp] lemma asStr_str (s : String) : asStr (.str s) = .ok s := rfl

@[simp] lemma asBool_bool (b : Bool) : asBool (.bool b) = .ok b := rfl

@[simp] lemma asList_list (l : List DVal) : asList (.list l) = .ok l := rfl

@[simp] lemma asDict_dict (d : Item) : asDict (.dict d) = .ok d := rfl

@[simp] lemma pyFloat_num (q : Rat) : pyFloat (.num q) = .ok q := rfl

@[simp] lemma pyInt_intCast (n : Int) : pyInt (.num (n : Rat)) = .ok n := by
  simp [pyInt, Rat.num_intCast, Rat.den_intCast]

@[simp] lemma asOptStr_optStrVal (o : Option String) :
    asOptStr (some (optStrVal o)) = .ok o := by
  cases o <;> rfl

@[simp] lemma from_to_date (o : Option PyDate) :
    DateTimeMapper.from_dynamodb_date (some (DateTimeMapper.to_dynamodb_date o)) = o := by
  cases o <;> rfl

/-- Round-trip through `mapM` for a list serialized element-wise. -/
lemma mapM_roundtrip {α : Type} (f : α → DVal) (g : DVal → Except PyErr α)
    (l : List α) (h : ∀ x ∈ l, g (f x) = .ok x) : (l.map f).mapM g = .ok l := by
  induction l with
  | nil => rfl
  | cons a as ih =>
    simp only [List.map_cons, List.mapM_cons, h a (by simp)]
    rw [ih (fun x hx => h x (by simp [hx]))]
    rfl

@[simp] lemma asStrList_map_str (l : List String) :
    asStrList (.list (l.map .str)) = .ok l := by
  simp only [asStrList, asList_list, ok_bind]
  exact mapM_roundtrip _ _ _ (fun x _ => rfl)

/-- Ingredient sub-records round-trip. -/
lemma ingredient_roundtrip (ing : Ingredient) :
    RecipeMapper.ingredientFromRecord (RecipeMapper.ingredientRecord ing) = .ok ing := by
  simp [RecipeMapper.ingredientFromRecord, RecipeMapper.ingredientRecord,
    subscript, dlookup, dgetD]

/-- Recipe round-trip: for a valid recipe whose optional rating is not the
falsy `0.0`, `from_dynamodb_item` inverts `to_dynamodb_item`. -/
lemma recipe_roundtrip (r : Recipe) (hs : 1 ≤ r.servings) (hr : r.rating ≠ some 0)
    (now : String) :
    RecipeMapper.from_dynamodb_item (RecipeMapper.to_dynamodb_item r now) = .ok r := by
  obtain ⟨id, title, description, servings, prep, cook, ings, instrs, tags, cuisine,
    difficulty, protein, image_url, source_url, rating⟩ := r
  simp only at hs hr
  have hmap := mapM_roundtrip RecipeMapper.ingredientRecord RecipeMapper.ingredientFromRecord
    ings (fun x _ => ingredient_roundtrip x)
  simp only [List.mapM] at hmap
  cases rating with
  | none =>
    simp [RecipeMapper.from_dynamodb_item, RecipeMapper.to_dynamodb_item, dgetD, dlookup,
      subscript, Recipe.post_init, hmap, truthyOpt, truthy, optNumTruthy,
      DateTimeMapper.to_dynamodb_datetime, not_lt.mpr hs]
  | some q =>
    have hq : q ≠ 0 := fun h => hr (by simp [h])
    simp [RecipeMapper.from_dynamodb_item, RecipeMapper.to_dynamodb_item, dgetD, dlookup,
      subscript, Recipe.post_init, hmap, truthyOpt, truthy, optNumTruthy,
      DateTimeMapper.to_dynamodb_datetime, not_lt.mpr hs, hq]

/-- UserProfile round-trip, provided the falsy value `0` is not used for the
optional time limits. -/
lemma user_roundtrip (u : UserProfile) (hp : u.max_prep_time_minutes ≠ some 0)
    (hc : u.max_cook_time_minutes ≠ some 0) (now : String) :
    UserProfileMapper.from_dynamodb_item (UserProfileMapper.to_dynamodb_item u now) = .ok u := by
  obtain ⟨id, name, household, dr, di, cp, mp, mc, skill, apt⟩ := u
  simp only at hp hc
  cases mp with
  | none =>
    cases mc with
    | none =>
      simp [UserProfileMapper.from_dynamodb_item, UserProfileMapper.to_dynamodb_item,
        dgetD, dlookup, subscript, truthyOpt, truthy, optIntTruthy,
        DateTimeMapper.to_dynamodb_datetime]
    | some c =>
      have hcq : c ≠ 0 := fun h => hc (by simp [h])
      simp [UserProfileMapper.from_dynamodb_item, UserProfileMapper.to_dynamodb_item,
        dgetD, dlookup, subscript, truthyOpt, truthy, optIntTruthy,
        DateTimeMapper.to_dynamodb_datetime, hcq]
  | some p =>
    have hpq : p ≠ 0 := fun h => hp (by simp [h])
    cases mc with
    | none =>
      simp [UserProfileMapper.from_dynamodb_item, UserProfileMapper.to_dynamodb_item,
        dgetD, dlookup, subscript, truthyOpt, truthy, optIntTruthy,
        DateTimeMapper.to_dynamodb_datetime, hpq]
    | some c =>
      have hcq : c ≠ 0 := fun h => hc (by simp [h])
      simp [UserProfileMapper.from_dynamodb_item, UserProfileMapper.to_dynamodb_item,
        dgetD, dlookup, subscript, truthyOpt, truthy, optIntTruthy,
        DateTimeMapper.to_dynamodb_datetime, hpq, hcq]

/-- Meal-slot sub-records round-trip for valid slots. -/
lemma mealslot_roundtrip (m : MealSlot) (hs : 1 ≤ m.servings) :
    MealPlanMapper.mealFromRecord (MealPlanMapper.mealRecord m) = .ok m := by
  obtain ⟨date, rid, servings, notes⟩ := m
  simp only at hs
  simp [MealPlanMapper.mealFromRecord, MealPlanMapper.mealRecord, dgetD, dlookup,
    subscript, MealSlot.post_init, DateTimeMapper.to_dynamodb_date,
    DateTimeMapper.from_dynamodb_date, not_lt.mpr hs]

/-- MealPlan round-trip for plans whose slots are all valid. -/
lemma mealplan_roundtrip (mp : MealPlan) (hs : ∀ m ∈ mp.meals, 1 ≤ m.servings)
    (now : String) :
    MealPlanMapper.from_dynamodb_item (MealPlanMapper.to_dynamodb_item mp now) = .ok mp := by
  obtain ⟨id, user_id, week, meals, created, active⟩ := mp
  simp only at hs
  have hmap := mapM_roundtrip MealPlanMapper.mealRecord MealPlanMapper.mealFromRecord
    meals (fun x hx => mealslot_roundtrip x (hs x hx))
  simp only [List.mapM] at hmap
  simp [MealPlanMapper.from_dynamodb_item, MealPlanMapper.to_dynamodb_item, dgetD, dlookup,
    subscript, hmap, DateTimeMapper.to_dynamodb_datetime]

/-- Feedback round-trip for valid ratings. -/
lemma feedback_roundtrip (f : Feedback) (h1 : 1 ≤ f.rating) (h5 : f.rating ≤ 5)
    (now : String) :
    FeedbackMapper.from_dynamodb_item (FeedbackMapper.to_dynamodb_item f now) = .ok f := by
  obtain ⟨id, user_id, recipe_id, rating, wma, mpi, notes, cooked, created⟩ := f
  simp only at h1 h5
  simp [FeedbackMapper.from_dynamodb_item, FeedbackMapper.to_dynamodb_item, dgetD, dlookup,
    subscript, Feedback.post_init, DateTimeMapper.to_dynamodb_datetime, h1, h5]

/-- Grocery-item sub-records round-trip. -/
lemma groceryitem_roundtrip (g : GroceryItem) :
    GroceryListMapper.groceryItemFromRecord (GroceryListMapper.groceryItemRecord g) = .ok g := by
  obtain ⟨name, qty, u, cat, srcs, purch, notes⟩ := g
  simp [GroceryListMapper.groceryItemFromRecord, GroceryListMapper.groceryItemRecord,
    dgetD, dlookup, subscript]

/-- GroceryList round-trip (unconditional). -/
lemma grocerylist_roundtrip (gl : GroceryList) (now : String) :
    GroceryListMapper.from_dynamodb_item (GroceryListMapper.to_dynamodb_item gl now) = .ok gl := by
  obtain ⟨id, mpi, items, created, week⟩ := gl
  have hmap := mapM_roundtrip GroceryListMapper.groceryItemRecord
    GroceryListMapper.groceryItemFromRecord items (fun x _ => groceryitem_roundtrip x)
  simp only [List.mapM] at hmap
  simp [GroceryListMapper.from_dynamodb_item, GroceryListMapper.to_dynamodb_item, dgetD,
    dlookup, subscript, hmap, DateTimeMapper.to_dynamodb_datetime]

/-! ## Sample entities used by concrete witnesses -/

def sampleIngredient : Ingredient :=
  { name := "flour", quantity := 2, unit := "cups" }

def sampleRecipe : Recipe :=
  { id := "r1", title := "Bread", description := "plain loaf", servings := 4,
    prep_time_minutes := 10, cook_time_minutes := 30,
    ingredients := [sampleIngredient], instructions := ["mix", "bake"],
    dietary_tags := ["vegetarian"], rating := some 4 }

def sampleUser : UserProfile :=
  { id := "u1", name := "Ana", max_prep_time_minutes := some 30 }

def sampleSlot : MealSlot :=
  { date := "2024-01-01", recipe_id := "r1", servings := 2 }

def samplePlan : MealPlan :=
  { id := "mp1", user_id := "u1", week_start_date := "2024-01-01",
    meals := [sampleSlot] }

def sampleFeedback : Feedback :=
  { id := "f1", user_id := "u1", recipe_id := "r1", rating := 5,
    would_make_again := true, cooked_date := some "2024-01-02" }

def sampleGroceryList : GroceryList :=
  { id := "g1", meal_plan_id := "mp1",
    items := [{ name := "flour", quantity := 2, unit := "cups",
                recipe_sources := ["r1"] }],
    week_start_date := some "2024-01-01" }

/-! ## C1 — mapper round-trip -/

/-- C1 counterexample: the claim fails as stated.  A `UserProfile` with
`max_prep_time_minutes = 0` is a valid domain entity (the entity has no
validation), but `to_dynamodb_item` serializes the falsy `0` as `null`
(`Decimal(str(v)) if v else None`), so the round-trip returns the profile
with `max_prep_time_minutes = None` — a domain-field difference that is not
a timestamp. -/
theorem c1_roundtrip_counterexample :
    UserProfileMapper.from_dynamodb_item
        (UserProfileMapper.to_dynamodb_item
          { id := "u1", name := "Ana", max_prep_time_minutes := some 0 }
          "2024-01-01T00:00:00")
      = .ok { id := "u1", name := "Ana", max_prep_time_minutes := none } ∧
    ({ id := "u1", name := "Ana", max_prep_time_minutes := none } : UserProfile)
      ≠ { id := "u1", name := "Ana", max_prep_time_minutes := some 0 } := by
  constructor
  · rfl
  · decide

/-- C1 (amended): for every entity type, `from_dynamodb_item` inverts
`to_dynamodb_item` on every domain field (timestamps are stamped at write
time and are not domain fields), for every valid entity — except that
zero-valued optional numerics are collapsed to absent: a `Recipe.rating`
of `0.0` and a `UserProfile.max_prep_time_minutes`/`max_cook_time_minutes`
of `0` deserialize as `None`. -/
theorem c1_roundtrip (r : Recipe) (u : UserProfile) (mp : MealPlan) (f : Feedback)
    (gl : GroceryList) (now : String)
    (hrs : 1 ≤ r.servings) (hrr : r.rating ≠ some 0)
    (hup : u.max_prep_time_minutes ≠ some 0) (huc : u.max_cook_time_minutes ≠ some 0)
    (hms : ∀ m ∈ mp.meals, 1 ≤ m.servings)
    (hf1 : 1 ≤ f.rating) (hf5 : f.rating ≤ 5) :
    RecipeMapper.from_dynamodb_item (RecipeMapper.to_dynamodb_item r now) = .ok r ∧
    UserProfileMapper.from_dynamodb_item (UserProfileMapper.to_dynamodb_item u now) = .ok u ∧
    MealPlanMapper.from_dynamodb_item (MealPlanMapper.to_dynamodb_item mp now) = .ok mp ∧
    FeedbackMapper.from_dynamodb_item (FeedbackMapper.to_dynamodb_item f now) = .ok f ∧
    GroceryListMapper.from_dynamodb_item (GroceryListMapper.to_dynamodb_item gl now) = .ok gl :=
  ⟨recipe_roundtrip r hrs hrr now, user_roundtrip u hup huc now,
   mealplan_roundtrip mp hms now, feedback_roundtrip f hf1 hf5 now,
   grocerylist_roundtrip gl now⟩

/-- C1 witness: the amended round-trip at concrete valid entities of all
five types. -/
theorem c1_roundtrip_witness :
    (1 ≤ sampleRecipe.servings ∧ sampleRecipe.rating ≠ some 0 ∧
     sampleUser.max_prep_time_minutes ≠ some 0 ∧
     sampleUser.max_cook_time_minutes ≠ some 0 ∧
     (∀ m ∈ samplePlan.meals, 1 ≤ m.servings) ∧
     1 ≤ sampleFeedback.rating ∧ sampleFeedback.rating ≤ 5) ∧
    RecipeMapper.from_dynamodb_item
      (RecipeMapper.to_dynamodb_item sampleRecipe "t") = .ok sampleRecipe ∧
    UserProfileMapper.from_dynamodb_item
      (UserProfileMapper.to_dynamodb_item sampleUser "t") = .ok sampleUser ∧
    MealPlanMapper.from_dynamodb_item
      (MealPlanMapper.to_dynamodb_item samplePlan "t") = .ok samplePlan ∧
    FeedbackMapper.from_dynamodb_item
      (FeedbackMapper.to_dynamodb_item sampleFeedback "t") = .ok sampleFeedback ∧
    GroceryListMapper.from_dynamodb_item
      (GroceryListMapper.to_dynamodb_item sampleGroceryList "t") = .ok sampleGroceryList :=
  ⟨⟨by decide, by decide, by decide, by decide, by decide, by decide, by decide⟩,
   c1_roundtrip sampleRecipe sampleUser samplePlan sampleFeedback sampleGroceryList "t"
     (by decide) (by decide) (by decide) (by decide) (by decide) (by decide) (by decide)⟩

/-! ## C2 — grocery consolidation -/

/-- When no item matches (lowercased name, exact unit), the consolidation
loop finds nothing. -/
lemma consolidateInto_eq_none (nl : String) (q : Rat) (u rid : String) :
    ∀ l : List GroceryItem, (∀ it ∈ l, ¬(pyLower it.name = nl ∧ it.unit = u)) →
      consolidateInto nl q u rid l = none := by
  intro l
  induction l with
  | nil => intro _; rfl
  | cons a as ih =>
    intro h
    have ha := h a (by simp)
    simp only [consolidateInto, if_neg ha, ih (fun x hx => h x (by simp [hx]))]

/-- The consolidation loop updates exactly the first matching item and keeps
everything else. -/
lemma consolidateInto_eq_first (nl : String) (q : Rat) (u rid : String) :
    ∀ (pre : List GroceryItem) (item : GroceryItem) (post : List GroceryItem),
      (∀ it ∈ pre, ¬(pyLower it.name = nl ∧ it.unit = u)) →
      pyLower item.name = nl → item.unit = u →
      consolidateInto nl q u rid (pre ++ item :: post) =
        some (pre ++
          { item with
            quantity := item.quantity + q,
            recipe_sources := if rid ∈ item.recipe_sources then item.recipe_sources
              else item.recipe_sources ++ [rid] } :: post) := by
  intro pre
  induction pre with
  | nil =>
    intro item post _ hn hu
    simp only [List.nil_append, consolidateInto, if_pos (And.intro hn hu)]
  | cons a as ih =>
    intro item post h hn hu
    have ha := h a (by simp)
    simp only [List.cons_append, consolidateInto, if_neg ha, List.append_eq,
      ih item post (fun x hx => h x (by simp [hx])) hn hu]

/-- C2 (amended): `consolidate_item` merges into the *first* existing item
whose name matches case-insensitively and whose unit matches *exactly*
(case-sensitively) — adding the quantity and unioning the recipe id into its
sources — and appends a new item when no item matches.  The claim's concrete
examples hold: "flour"/"Flour" with the same unit merge to quantity `7/2`
(3.5) with two recipe sources, and "sugar" in cups vs grams stays two
items. -/
theorem c2_consolidate :
    (∀ (gl : GroceryList) (name : String) (q : Rat) (u rid : String),
      (∀ it ∈ gl.items, ¬(pyLower it.name = pyLower name ∧ it.unit = u)) →
      (gl.consolidate_item name q u rid).items =
        gl.items ++ [{ name := name, quantity := q, unit := u, recipe_sources := [rid] }]) ∧
    (∀ (gl : GroceryList) (name : String) (q : Rat) (u rid : String)
      (pre post : List GroceryItem) (item : GroceryItem),
      gl.items = pre ++ item :: post →
      (∀ it ∈ pre, ¬(pyLower it.name = pyLower name ∧ it.unit = u)) →
      pyLower item.name = pyLower name → item.unit = u →
      (gl.consolidate_item name q u rid).items =
        pre ++
          { item with
            quantity := item.quantity + q,
            recipe_sources := if rid ∈ item.recipe_sources then item.recipe_sources
              else item.recipe_sources ++ [rid] } :: post) ∧
    ((GroceryList.consolidate_item
        (GroceryList.consolidate_item
          { id := "g1", meal_plan_id := "mp1" } "flour" 2 "cups" "recipe-1")
        "Flour" (3/2) "cups" "recipe-2").items =
      [{ name := "flour", quantity := 7/2, unit := "cups",
         recipe_sources := ["recipe-1", "recipe-2"] }]) ∧
    ((GroceryList.consolidate_item
        (GroceryList.consolidate_item
          { id := "g1", meal_plan_id := "mp1" } "sugar" 2 "cups" "recipe-1")
        "sugar" 100 "grams" "recipe-2").items =
      [{ name := "sugar", quantity := 2, unit := "cups", recipe_sources := ["recipe-1"] },
       { name := "sugar", quantity := 100, unit := "grams", recipe_sources := ["recipe-2"] }]) := by
  refine ⟨?_, ?_, ?_, ?_⟩
  · intro gl name q u rid h
    simp only [GroceryList.consolidate_item, consolidateInto_eq_none (pyLower name) q u rid gl.items h]
  · intro gl name q u rid pre post item hitems hpre hn hu
    simp only [GroceryList.consolidate_item, hitems,
      consolidateInto_eq_first (pyLower name) q u rid pre item post hpre hn hu]
  · have e1 : pyLower "Flour" = "flour" := by decide
    have e2 : pyLower "flour" = "flour" := by decide
    simp [GroceryList.consolidate_item, consolidateInto, e1, e2]
    norm_num
  · have e1 : pyLower "sugar" = "sugar" := by decide
    simp [GroceryList.consolidate_item, consolidateInto, e1]

/-- C2 counterexample to the claim as stated: under a case-insensitive
comparison of the *pair* (name, unit), `("sugar", "Cups")` and
`("sugar", "cups")` are the same key and should merge, but the source
compares the unit case-sensitively, so two distinct items result. -/
theorem c2_consolidate_counterexample :
    pyLower "Cups" = pyLower "cups" ∧
    (GroceryList.consolidate_item
        (GroceryList.consolidate_item
          { id := "g1", meal_plan_id := "mp1" } "sugar" 2 "Cups" "recipe-1")
        "sugar" 1 "cups" "recipe-2").items.length = 2 := by
  constructor
  · decide
  · decide

/-- C2 witness: the amended merge rule applied at a concrete list — a
one-item list hit by a case-insensitive name match with equal unit. -/
theorem c2_consolidate_witness :
    ((∀ it ∈ ({ id := "g1", meal_plan_id := "mp1" } : GroceryList).items,
        ¬(pyLower it.name = pyLower "flour" ∧ it.unit = "cups")) ∧
      (GroceryList.consolidate_item { id := "g1", meal_plan_id := "mp1" }
          "flour" 2 "cups" "recipe-1").items =
        ({ id := "g1", meal_plan_id := "mp1" } : GroceryList).items ++
          [{ name := "flour", quantity := 2, unit := "cups", recipe_sources := ["recipe-1"] }]) ∧
    (GroceryList.consolidate_item sampleGroceryList "Flour" 1 "cups" "recipe-9").items =
      [] ++
        { name := "flour", quantity := 2 + 1, unit := "cups",
          recipe_sources := if "recipe-9" ∈ (["r1"] : List String) then (["r1"] : List String)
            else ["r1"] ++ ["recipe-9"] } :: [] :=
  ⟨⟨by simp, c2_consolidate.1 { id := "g1", meal_plan_id := "mp1" } "flour" 2 "cups" "recipe-1"
      (by simp)⟩,
   c2_consolidate.2.1 sampleGroceryList "Flour" 1 "cups" "recipe-9" [] []
     { name := "flour", quantity := 2, unit := "cups", recipe_sources := ["r1"] }
     (by rfl) (by simp) (by decide) (by rfl)⟩

/-! ## C5 — recipe scaling -/

/-- A 4-serving recipe with one ingredient of quantity 1, used by the
claim's concrete scaling example. -/
def scaleDemoRecipe : Recipe :=
  { id := "r4", title := "Soup", description := "stock soup", servings := 4,
    prep_time_minutes := 5, cook_time_minutes := 10,
    ingredients := [{ name := "stock", quantity := 1, unit := "cups" }],
    instructions := ["simmer"] }

/-- C5: `Recipe.scale` multiplies every ingredient quantity by
`new_servings / servings`; scaling to the current serving count returns the
recipe unchanged; scaling to any target below 1 raises `ValueError`; and the
claim's concrete example holds (4 servings, quantity 1, scaled to 8 gives
quantity 2). -/
theorem c5_recipe_scale :
    (∀ (r : Recipe) (n : Int), 1 ≤ r.servings → 1 ≤ n → n ≠ r.servings →
      r.scale n = .ok
        { r with
          servings := n,
          ingredients := r.ingredients.map
            (fun ing => ing.scale ((n : Rat) / (r.servings : Rat))) }) ∧
    (∀ r : Recipe, 1 ≤ r.servings → r.scale r.servings = .ok r) ∧
    (∀ (r : Recipe) (n : Int), n < 1 →
      r.scale n = .error (.valueError "Servings must be at least 1")) ∧
    (scaleDemoRecipe.scale 8 = .ok
      { scaleDemoRecipe with
        servings := 8,
        ingredients := [{ name := "stock", quantity := 2, unit := "cups" }] }) := by
  refine ⟨?_, ?_, ?_, ?_⟩
  · intro r n hr hn hne
    simp only [Recipe.scale, if_neg (by omega : ¬ n < 1),
      if_neg (by omega : ¬ r.servings = 0), if_neg hne, Recipe.post_init]
  · intro r hr
    simp [Recipe.scale, if_neg (by omega : ¬ r.servings < 1),
      if_neg (by omega : ¬ r.servings = 0)]
  · intro r n hn
    simp [Recipe.scale, if_pos hn]
  · have h8 : ¬ ((8 : Int) < 1) := by decide
    have h0 : ¬ (scaleDemoRecipe.servings = 0) := by decide
    have hne : ¬ ((8 : Int) = scaleDemoRecipe.servings) := by decide
    simp only [Recipe.scale, if_neg h8, if_neg h0, if_neg hne, Recipe.post_init]
    norm_num [scaleDemoRecipe, Ingredient.scale]

/-- C5 witness: the general scaling law, the unchanged case and the failure
case at concrete inputs. -/
theorem c5_recipe_scale_witness :
    (1 ≤ scaleDemoRecipe.servings ∧ 1 ≤ (8 : Int) ∧ (8 : Int) ≠ scaleDemoRecipe.servings ∧
      scaleDemoRecipe.scale 8 = .ok
        { scaleDemoRecipe with
          servings := 8,
          ingredients := scaleDemoRecipe.ingredients.map
            (fun ing => ing.scale ((8 : Rat) / (scaleDemoRecipe.servings : Rat))) }) ∧
    (scaleDemoRecipe.scale scaleDemoRecipe.servings = .ok scaleDemoRecipe) ∧
    ((0 : Int) < 1 ∧
      scaleDemoRecipe.scale 0 = .error (.valueError "Servings must be at least 1")) :=
  ⟨⟨by decide, by decide, by decide,
    c5_recipe_scale.1 scaleDemoRecipe 8 (by decide) (by decide) (by decide)⟩,
   c5_recipe_scale.2.1 scaleDemoRecipe (by decide),
   ⟨by decide, c5_recipe_scale.2.2.1 scaleDemoRecipe 0 (by decide)⟩⟩

/-! ## C6 — feedback rating bounds -/

/-- C6: constructing `Feedback` (its `__post_init__`) succeeds exactly when
the rating lies in `[1, 5]` and raises `ValueError` exactly when it does
not; in particular ratings 0 and 6 fail and ratings 1 and 5 succeed. -/
theorem c6_feedback_rating :
    (∀ f : Feedback, (Feedback.post_init f = .ok f ↔ 1 ≤ f.rating ∧ f.rating ≤ 5)) ∧
    (∀ f : Feedback,
      (Feedback.post_init f = .error (.valueError "Rating must be between 1 and 5") ↔
        ¬(1 ≤ f.rating ∧ f.rating ≤ 5))) ∧
    (Feedback.post_init { id := "f0", user_id := "u", recipe_id := "r", rating := 0, would_make_again := true }
      = .error (.valueError "Rating must be between 1 and 5")) ∧
    (Feedback.post_init { id := "f6", user_id := "u", recipe_id := "r", rating := 6, would_make_again := true }
      = .error (.valueError "Rating must be between 1 and 5")) ∧
    (Feedback.post_init { id := "f1", user_id := "u", recipe_id := "r", rating := 1, would_make_again := true }
      = .ok { id := "f1", user_id := "u", recipe_id := "r", rating := 1, would_make_again := true }) ∧
    (Feedback.post_init { id := "f5", user_id := "u", recipe_id := "r", rating := 5, would_make_again := true }
      = .ok { id := "f5", user_id := "u", recipe_id := "r", rating := 5, would_make_again := true }) := by
  refine ⟨?_, ?_, by rfl, by rfl, by rfl, by rfl⟩
  · intro f
    by_cases h : 1 ≤ f.rating ∧ f.rating ≤ 5 <;> simp [Feedback.post_init, h]
  · intro f
    by_cases h : 1 ≤ f.rating ∧ f.rating ≤ 5 <;> simp [Feedback.post_init, h]

/-! ## C9 — remove_meal removes every slot at the date -/

/-- Shrinking under `filter` is equivalent to the presence of a dropped
element. -/
lemma filter_date_lt_iff (d : PyDate) (l : List MealSlot) :
    (l.filter (fun m => m.date ≠ d)).length < l.length ↔ ∃ m ∈ l, m.date = d := by
  have hle := List.length_filter_le (fun m : MealSlot => m.date ≠ d) l
  have hsub : List.Sublist (l.filter (fun m => m.date ≠ d)) l := List.filter_sublist l
  constructor
  · intro hlt
    by_contra hno
    push_neg at hno
    have heq : l.filter (fun m => m.date ≠ d) = l := by
      rw [List.filter_eq_self]
      intro a ha
      simp [hno a ha]
    rw [heq] at hlt
    exact lt_irrefl _ hlt
  · rintro ⟨m, hm, hd⟩
    by_contra hnlt
    have heq := hsub.eq_of_length (Nat.le_antisymm hle (Nat.le_of_not_lt hnlt))
    have hmem : m ∈ l.filter (fun m => m.date ≠ d) := by rw [heq]; exact hm
    have hp := List.of_mem_filter hmem
    simp [hd] at hp

/-- C9: `remove_meal` drops *every* slot whose date equals the argument
(keeping all others, in order), returns `true` exactly when at least one
slot was removed, and leaves every other field of the plan unchanged. -/
theorem c9_remove_meal (mp : MealPlan) (d : PyDate) :
    ((mp.remove_meal d).snd.meals = mp.meals.filter (fun m => m.date ≠ d)) ∧
    ((mp.remove_meal d).fst = true ↔ ∃ m ∈ mp.meals, m.date = d) ∧
    (mp.remove_meal d).snd.id = mp.id ∧
    (mp.remove_meal d).snd.user_id = mp.user_id ∧
    (mp.remove_meal d).snd.week_start_date = mp.week_start_date ∧
    (mp.remove_meal d).snd.created_at = mp.created_at ∧
    (mp.remove_meal d).snd.is_active = mp.is_active := by
  refine ⟨rfl, ?_, rfl, rfl, rfl, rfl, rfl⟩
  simp only [MealPlan.remove_meal, decide_eq_true_eq]
  exact filter_date_lt_iff d mp.meals

/-! ## C10 — completion percentage is total and bounded -/

/-- C10: `completion_percentage` never divides by zero: it is `0` on an
empty list, equals `purchased / total * 100` otherwise, and always lies in
`[0, 100]`. -/
theorem c10_completion_percentage (gl : GroceryList) :
    (gl.items = [] → gl.completion_percentage = 0) ∧
    0 ≤ gl.completion_percentage ∧ gl.completion_percentage ≤ 100 ∧
    (gl.items ≠ [] → gl.completion_percentage =
      ((gl.purchased_count : Rat) / (gl.total_items : Rat)) * 100) := by
  have hle : gl.purchased_count ≤ gl.total_items :=
    List.length_filter_le (fun item : GroceryItem => item.is_purchased) gl.items
  refine ⟨?_, ?_, ?_, ?_⟩
  · intro h
    simp [GroceryList.completion_percentage, GroceryList.total_items, h]
  · by_cases h : gl.total_items = 0
    · simp [GroceryList.completion_percentage, h]
    · simp only [GroceryList.completion_percentage, if_neg h]
      positivity
  · by_cases h : gl.total_items = 0
    · simp [GroceryList.completion_percentage, h]
    · simp only [GroceryList.completion_percentage, if_neg h]
      have ht : (0 : Rat) < (gl.total_items : Rat) := by
        exact_mod_cast Nat.pos_of_ne_zero h
      have hdiv : ((gl.purchased_count : Rat) / (gl.total_items : Rat)) ≤ 1 := by
        rw [div_le_one ht]
        exact_mod_cast hle
      nlinarith
  · intro h
    have ht : gl.total_items ≠ 0 := by
      simpa [GroceryList.total_items, List.length_eq_zero] using h
    simp [GroceryList.completion_percentage, if_neg ht]

/-- C10 witness: both branches at concrete lists. -/
theorem c10_completion_witness :
    (({ id := "g0", meal_plan_id := "m0" } : GroceryList).items = [] ∧
      ({ id := "g0", meal_plan_id := "m0" } : GroceryList).completion_percentage = 0) ∧
    (sampleGroceryList.items ≠ [] ∧
      sampleGroceryList.completion_percentage =
        ((sampleGroceryList.purchased_count : Rat) /
          (sampleGroceryList.total_items : Rat)) * 100) :=
  ⟨⟨rfl, (c10_completion_percentage { id := "g0", meal_plan_id := "m0" }).1 rfl⟩,
   ⟨by simp [sampleGroceryList],
    (c10_completion_percentage sampleGroceryList).2.2.2 (by simp [sampleGroceryList])⟩⟩

/-! ## C3 — defensive defaulting in from_dynamodb_item -/

/-- C3 counterexample: a persisted recipe item whose ingredient sub-record
lacks the required-looking field `name` makes `from_dynamodb_item` throw a
`KeyError` (Python subscripting, `ing["name"]`) instead of defaulting — and
this is not the meal-date/week-start `ValueError` exception the claim
allows. -/
theorem c3_defaulting_counterexample :
    RecipeMapper.from_dynamodb_item
      [("Data", .dict [("ingredients",
        .list [.dict [("quantity", .num 1), ("unit", .str "cups")]])])]
      = .error (.keyError "name") := by
  rfl

/-- C3 (amended): missing *top-level* fields of every entity default (empty
string, `1`/`0`/`2` numeric defaults, `false`, empty collections) and
missing *optional* sub-fields of nested records default (`notes` to `None`,
grocery `category` to `"other"`), while a missing or null week-start date
and a present-but-null meal date raise `ValueError`; but missing
*required* sub-fields of nested collection records raise a `KeyError`
(e.g. a meal record without a `date` key), not a defaulting path and not a
`ValueError`. -/
theorem c3_defaulting :
    (RecipeMapper.from_dynamodb_item [] = .ok
      { id := "", title := "", description := "", servings := 1,
        prep_time_minutes := 0, cook_time_minutes := 0, ingredients := [],
        instructions := [], dietary_tags := [], cuisine := "", difficulty := "",
        protein_type := "", image_url := none, source_url := none, rating := none }) ∧
    (UserProfileMapper.from_dynamodb_item [] = .ok
      { id := "", name := "", household_size := 2, dietary_restrictions := [],
        disliked_ingredients := [], cuisine_preferences := [],
        max_prep_time_minutes := none, max_cook_time_minutes := none,
        skill_level := "intermediate", avoid_protein_types := [] }) ∧
    (FeedbackMapper.from_dynamodb_item [] = .ok
      { id := "", user_id := "", recipe_id := "", rating := 3,
        would_make_again := false, meal_plan_id := none, notes := none,
        cooked_date := none, created_at := none }) ∧
    (GroceryListMapper.from_dynamodb_item [] = .ok
      { id := "", meal_plan_id := "", items := [], created_at := none,
        week_start_date := none }) ∧
    (MealPlanMapper.from_dynamodb_item []
      = .error (.valueError "week_start_date is required but was None")) ∧
    (RecipeMapper.ingredientFromRecord
        (.dict [("name", .str "salt"), ("quantity", .num 1), ("unit", .str "tsp")])
      = .ok { name := "salt", quantity := 1, unit := "tsp", notes := none }) ∧
    (GroceryListMapper.groceryItemFromRecord
        (.dict [("name", .str "salt"), ("quantity", .num 1), ("unit", .str "tsp")])
      = .ok
        { name := "salt", quantity := 1, unit := "tsp", category := "other",
          recipe_sources := [], is_purchased := false, notes := none }) ∧
    (MealPlanMapper.from_dynamodb_item
        [("Data", .dict [("meals", .list [.dict [("date", .null)]]),
          ("week_start_date", .str "2024-01-01")])]
      = .error (.valueError "Meal date is required but was None")) ∧
    (MealPlanMapper.from_dynamodb_item
        [("Data", .dict [("meals", .list [.dict []]),
          ("week_start_date", .str "2024-01-01")])]
      = .error (.keyError "date")) := by
  exact ⟨rfl, rfl, rfl, rfl, rfl, rfl, rfl, rfl, rfl⟩

/-! ## C4 — pagination -/

/-- `mapM` over an appended list, for `Except`. -/
lemma exceptMapM_append {α β : Type} (f : α → Except PyErr β) (l1 l2 : List α) :
    (l1 ++ l2).mapM f = (do
      let a ← l1.mapM f
      let b ← l2.mapM f
      pure (a ++ b)) := by
  induction l1 with
  | nil =>
    simp only [List.nil_append, List.mapM_nil, ok_bind]
    cases l2.mapM f <;> rfl
  | cons x xs ih =>
    simp only [List.cons_append, List.mapM_cons, ih]
    cases f x with
    | error e => rfl
    | ok b =>
      simp only [ok_bind]
      cases xs.mapM f with
      | error e => rfl
      | ok bs =>
        simp only [ok_bind]
        cases l2.mapM f <;> simp

/-- Any page-processing loop of the shape shared by `get_all`,
`get_by_user` and `get_by_recipe` returns exactly the mapped union of all
pages. -/
lemma collect_loop_spec {α : Type} (f : Item → Except PyErr α)
    (loop : List (List Item) → List α → Except PyErr (List α))
    (hnil : ∀ acc, loop [] acc = .ok acc)
    (hcons : ∀ p rest acc, loop (p :: rest) acc = do
      let m ← p.mapM f
      loop rest (acc ++ m)) :
    ∀ (pages : List (List Item)) (acc : List α),
      loop pages acc = (pages.flatten.mapM f).map (fun l => acc ++ l) := by
  intro pages
  induction pages with
  | nil =>
    intro acc
    rw [hnil]
    show Except.ok acc = Except.ok (acc ++ [])
    rw [List.append_nil]
  | cons p rest ih =>
    intro acc
    rw [hcons, List.flatten_cons, exceptMapM_append]
    cases hp : p.mapM f with
    | error e => rfl
    | ok m =>
      simp only [ok_bind, ih]
      cases rest.flatten.mapM f with
      | error e => rfl
      | ok ms =>
        show Except.ok (acc ++ m ++ ms) = Except.ok (acc ++ (m ++ ms))
        rw [List.append_assoc]

/-- C4 (amended): the collection-returning query reads — recipe `get_all`
and feedback `get_by_user` and `get_by_recipe` — loop on the continuation
token until the result set is exhausted and return the mapped union of
every page, with no items dropped or added relative to what the store
returns; but the scan-based feedback `get_by_id` never follows the
continuation token: its result depends only on the first response page. -/
theorem c4_pagination :
    (∀ pages : List (List Item),
      DynamoDBRecipeRepository.get_all pages [] =
        pages.flatten.mapM RecipeMapper.from_dynamodb_item) ∧
    (∀ pages : List (List Item),
      DynamoDBFeedbackRepository.get_by_user pages [] =
        pages.flatten.mapM FeedbackMapper.from_dynamodb_item) ∧
    (∀ pages : List (List Item),
      DynamoDBFeedbackRepository.get_by_recipe pages [] =
        pages.flatten.mapM FeedbackMapper.from_dynamodb_item) ∧
    (∀ (p : List Item) (rest : List (List Item)),
      DynamoDBFeedbackRepository.get_by_id (p :: rest) =
        DynamoDBFeedbackRepository.get_by_id [p]) := by
  refine ⟨?_, ?_, ?_, ?_⟩
  · intro pages
    rw [collect_loop_spec RecipeMapper.from_dynamodb_item DynamoDBRecipeRepository.get_all
      (fun _ => rfl) (fun _ _ _ => rfl) pages []]
    cases pages.flatten.mapM RecipeMapper.from_dynamodb_item <;> rfl
  · intro pages
    rw [collect_loop_spec FeedbackMapper.from_dynamodb_item DynamoDBFeedbackRepository.get_by_user
      (fun _ => rfl) (fun _ _ _ => rfl) pages []]
    cases pages.flatten.mapM FeedbackMapper.from_dynamodb_item <;> rfl
  · intro pages
    rw [collect_loop_spec FeedbackMapper.from_dynamodb_item DynamoDBFeedbackRepository.get_by_recipe
      (fun _ => rfl) (fun _ _ _ => rfl) pages []]
    cases pages.flatten.mapM FeedbackMapper.from_dynamodb_item <;> rfl
  · intro p rest
    cases p <;> rfl

/-- C4 counterexample: a feedback scan whose matching item arrives on the
second page.  The unioned result set of the scan contains exactly the
stored feedback item (which maps back to `sampleFeedback`), yet `get_by_id`
returns `None`: the partial first page is surfaced as the final result. -/
theorem c4_pagination_counterexample :
    DynamoDBFeedbackRepository.get_by_id
        [[], [FeedbackMapper.to_dynamodb_item sampleFeedback "t"]] = .ok none ∧
    ([[], [FeedbackMapper.to_dynamodb_item sampleFeedback "t"]] : List (List Item)).flatten
      = [FeedbackMapper.to_dynamodb_item sampleFeedback "t"] ∧
    FeedbackMapper.from_dynamodb_item (FeedbackMapper.to_dynamodb_item sampleFeedback "t")
      = .ok sampleFeedback := by
  exact ⟨rfl, rfl, rfl⟩

/-! ## C7 — delete / exists semantics -/

/-- Deleting a key removes every row at that key from point-lookup view. -/
lemma pointGet_delete_item (st : Store) (pk sk : String) :
    pointGet (delete_item st pk sk) pk sk = none := by
  rw [pointGet, List.find?_eq_none]
  intro x hx
  have hkeep := (List.mem_filter.1 hx).2
  simp only [Bool.not_eq_eq_eq_not, Bool.not_true] at hkeep
  simp [hkeep]

/-- If a located row is the unique row matched by a filter, deleting it by
its own key empties the filter's view of the store. -/
lemma locate_delete_clears (P : Item → Bool) (st : Store) (it : Item) (p s : String)
    (hq : st.rows.filter P = [it]) (hk : rowKey it = some (p, s)) :
    (delete_item st p s).rows.filter P = [] := by
  rw [List.filter_eq_nil_iff]
  intro x hx
  obtain ⟨hxrows, hxkeep⟩ := List.mem_filter.1 hx
  intro hPx
  have hxmem : x ∈ st.rows.filter P := List.mem_filter.2 ⟨hxrows, hPx⟩
  rw [hq] at hxmem
  have hxit : x = it := by simpa using hxmem
  subst hxit
  have hmatch : keyMatches p s x = true := by simp [keyMatches, hk]
  simp [hmatch] at hxkeep

/-- Locate-then-delete for a filter with at most one match: deleting the
head of the match list empties the filter's view. -/
lemma filter_delete_located_head (P : Item → Bool) (st : Store) (it : Item)
    (rest : List Item) (hq : st.rows.filter P = it :: rest)
    (hu : (st.rows.filter P).length ≤ 1) (hk : (rowKey it).isSome) :
    (delete_located st it).rows.filter P = [] := by
  have hrest : rest = [] := by
    rw [hq] at hu
    simp only [List.length_cons] at hu
    exact List.length_eq_zero.1 (by omega)
  subst hrest
  obtain ⟨⟨p, s⟩, hps⟩ := Option.isSome_iff_exists.1 hk
  rw [delete_located, hps]
  exact locate_delete_clears P st it p s hq hps

/-- C7: for each of the five repositories, `delete` returns `false` leaving
the store untouched when nothing matches the id, and returns `true` when a
matching item existed, after which `exists` for that id is `false`.  The
locate-by-query/scan repositories additionally assume the id matches at
most one row (ids are unique), and that all rows carry string keys, as
every row written through `save` does. -/
theorem c7_delete_exists (st : Store) (idv : String)
    (hwf : ∀ it ∈ st.rows, (rowKey it).isSome)
    (hugsi : (queryGSI st ("MEALPLAN#" ++ idv)).length ≤ 1)
    (huscan : (scanDataId st idv).length ≤ 1) :
    (DynamoDBRecipeRepository.exists_q st idv = false →
      DynamoDBRecipeRepository.delete st idv = (false, st)) ∧
    (DynamoDBRecipeRepository.exists_q st idv = true →
      (DynamoDBRecipeRepository.delete st idv).fst = true ∧
      DynamoDBRecipeRepository.exists_q (DynamoDBRecipeRepository.delete st idv).snd idv = false) ∧
    (DynamoDBUserRepository.exists_q st idv = false →
      DynamoDBUserRepository.delete st idv = (false, st)) ∧
    (DynamoDBUserRepository.exists_q st idv = true →
      (DynamoDBUserRepository.delete st idv).fst = true ∧
      DynamoDBUserRepository.exists_q (DynamoDBUserRepository.delete st idv).snd idv = false) ∧
    (DynamoDBMealPlanRepository.exists_q st idv = false →
      DynamoDBMealPlanRepository.delete st idv = (false, st)) ∧
    (DynamoDBMealPlanRepository.exists_q st idv = true →
      (DynamoDBMealPlanRepository.delete st idv).fst = true ∧
      DynamoDBMealPlanRepository.exists_q (DynamoDBMealPlanRepository.delete st idv).snd idv = false) ∧
    (DynamoDBFeedbackRepository.exists_q st idv = false →
      DynamoDBFeedbackRepository.delete st idv = (false, st)) ∧
    (DynamoDBFeedbackRepository.exists_q st idv = true →
      (DynamoDBFeedbackRepository.delete st idv).fst = true ∧
      DynamoDBFeedbackRepository.exists_q (DynamoDBFeedbackRepository.delete st idv).snd idv = false) ∧
    (DynamoDBGroceryListRepository.exists_q st idv = false →
      DynamoDBGroceryListRepository.delete st idv = (false, st)) ∧
    (DynamoDBGroceryListRepository.exists_q st idv = true →
      (DynamoDBGroceryListRepository.delete st idv).fst = true ∧
      DynamoDBGroceryListRepository.exists_q (DynamoDBGroceryListRepository.delete st idv).snd idv = false) := by
  refine ⟨?_, ?_, ?_, ?_, ?_, ?_, ?_, ?_, ?_, ?_⟩
  · intro h
    simp [DynamoDBRecipeRepository.delete, h]
  · intro h
    simp only [DynamoDBRecipeRepository.exists_q] at h
    refine ⟨by simp [DynamoDBRecipeRepository.delete, DynamoDBRecipeRepository.exists_q, h], ?_⟩
    simp [DynamoDBRecipeRepository.delete, DynamoDBRecipeRepository.exists_q, h,
      pointGet_delete_item]
  · intro h
    simp [DynamoDBUserRepository.delete, h]
  · intro h
    simp only [DynamoDBUserRepository.exists_q] at h
    refine ⟨by simp [DynamoDBUserRepository.delete, DynamoDBUserRepository.exists_q, h], ?_⟩
    simp [DynamoDBUserRepository.delete, DynamoDBUserRepository.exists_q, h,
      pointGet_delete_item]
  · intro h
    simp [DynamoDBMealPlanRepository.delete, h]
  · intro h
    have hne : queryGSI st ("MEALPLAN#" ++ idv) ≠ [] := by
      simpa [DynamoDBMealPlanRepository.exists_q, List.isEmpty_iff] using h
    obtain ⟨it, rest, hq⟩ : ∃ it rest, queryGSI st ("MEALPLAN#" ++ idv) = it :: rest := by
      cases hql : queryGSI st ("MEALPLAN#" ++ idv) with
      | nil => exact absurd hql hne
      | cons a l => exact ⟨a, l, rfl⟩
    have hit_rows : it ∈ st.rows := by
      have hmem : it ∈ queryGSI st ("MEALPLAN#" ++ idv) := by rw [hq]; simp
      exact (List.mem_filter.1 hmem).1
    have hclear := filter_delete_located_head _ st it rest hq hugsi (hwf it hit_rows)
    refine ⟨by simp [DynamoDBMealPlanRepository.delete, h, hq], ?_⟩
    simp only [DynamoDBMealPlanRepository.delete, h, Bool.not_true, Bool.false_eq_true,
      if_false, hq]
    simpa [DynamoDBMealPlanRepository.exists_q, queryGSI, List.isEmpty_iff] using hclear
  · intro h
    simp [DynamoDBFeedbackRepository.delete, h]
  · intro h
    have hne : scanDataId st idv ≠ [] := by
      simpa [DynamoDBFeedbackRepository.exists_q, List.isEmpty_iff] using h
    obtain ⟨it, rest, hq⟩ : ∃ it rest, scanDataId st idv = it :: rest := by
      cases hql : scanDataId st idv with
      | nil => exact absurd hql hne
      | cons a l => exact ⟨a, l, rfl⟩
    have hit_rows : it ∈ st.rows := by
      have hmem : it ∈ scanDataId st idv := by rw [hq]; simp
      exact (List.mem_filter.1 hmem).1
    have hclear := filter_delete_located_head _ st it rest hq huscan (hwf it hit_rows)
    refine ⟨by simp [DynamoDBFeedbackRepository.delete, h, hq], ?_⟩
    simp only [DynamoDBFeedbackRepository.delete, h, Bool.not_true, Bool.false_eq_true,
      if_false, hq]
    simpa [DynamoDBFeedbackRepository.exists_q, scanDataId, List.isEmpty_iff] using hclear
  · intro h
    simp [DynamoDBGroceryListRepository.delete, h]
  · intro h
    have hne : scanDataId st idv ≠ [] := by
      simpa [DynamoDBGroceryListRepository.exists_q, List.isEmpty_iff] using h
    obtain ⟨it, rest, hq⟩ : ∃ it rest, scanDataId st idv = it :: rest := by
      cases hql : scanDataId st idv with
      | nil => exact absurd hql hne
      | cons a l => exact ⟨a, l, rfl⟩
    have hit_rows : it ∈ st.rows := by
      have hmem : it ∈ scanDataId st idv := by rw [hq]; simp
      exact (List.mem_filter.1 hmem).1
    have hclear := filter_delete_located_head _ st it rest hq huscan (hwf it hit_rows)
    refine ⟨by simp [DynamoDBGroceryListRepository.delete, h, hq], ?_⟩
    simp only [DynamoDBGroceryListRepository.delete, h, Bool.not_true, Bool.false_eq_true,
      if_false, hq]
    simpa [DynamoDBGroceryListRepository.exists_q, scanDataId, List.isEmpty_iff] using hclear

/-- A concrete store holding one row of each entity type, written through
the mappers. -/
def sampleStore : Store :=
  ⟨[RecipeMapper.to_dynamodb_item sampleRecipe "t",
    UserProfileMapper.to_dynamodb_item sampleUser "t",
    MealPlanMapper.to_dynamodb_item samplePlan "t",
    FeedbackMapper.to_dynamodb_item sampleFeedback "t",
    GroceryListMapper.to_dynamodb_item sampleGroceryList "t"]⟩

/-- C7 witness: the delete/exists contract at a concrete store and the
meal-plan id `"mp1"`, with all hypotheses checked by evaluation. -/
theorem c7_delete_exists_witness :
    ((∀ it ∈ sampleStore.rows, (rowKey it).isSome) ∧
      (queryGSI sampleStore ("MEALPLAN#" ++ "mp1")).length ≤ 1 ∧
      (scanDataId sampleStore "mp1").length ≤ 1) ∧
    ((DynamoDBRecipeRepository.exists_q sampleStore "mp1" = false →
      DynamoDBRecipeRepository.delete sampleStore "mp1" = (false, sampleStore)) ∧
    (DynamoDBRecipeRepository.exists_q sampleStore "mp1" = true →
      (DynamoDBRecipeRepository.delete sampleStore "mp1").fst = true ∧
      DynamoDBRecipeRepository.exists_q (DynamoDBRecipeRepository.delete sampleStore "mp1").snd "mp1" = false) ∧
    (DynamoDBUserRepository.exists_q sampleStore "mp1" = false →
      DynamoDBUserRepository.delete sampleStore "mp1" = (false, sampleStore)) ∧
    (DynamoDBUserRepository.exists_q sampleStore "mp1" = true →
      (DynamoDBUserRepository.delete sampleStore "mp1").fst = true ∧
      DynamoDBUserRepository.exists_q (DynamoDBUserRepository.delete sampleStore "mp1").snd "mp1" = false) ∧
    (DynamoDBMealPlanRepository.exists_q sampleStore "mp1" = false →
      DynamoDBMealPlanRepository.delete sampleStore "mp1" = (false, sampleStore)) ∧
    (DynamoDBMealPlanRepository.exists_q sampleStore "mp1" = true →
      (DynamoDBMealPlanRepository.delete sampleStore "mp1").fst = true ∧
      DynamoDBMealPlanRepository.exists_q (DynamoDBMealPlanRepository.delete sampleStore "mp1").snd "mp1" = false) ∧
    (DynamoDBFeedbackRepository.exists_q sampleStore "mp1" = false →
      DynamoDBFeedbackRepository.delete sampleStore "mp1" = (false, sampleStore)) ∧
    (DynamoDBFeedbackRepository.exists_q sampleStore "mp1" = true →
      (DynamoDBFeedbackRepository.delete sampleStore "mp1").fst = true ∧
      DynamoDBFeedbackRepository.exists_q (DynamoDBFeedbackRepository.delete sampleStore "mp1").snd "mp1" = false) ∧
    (DynamoDBGroceryListRepository.exists_q sampleStore "mp1" = false →
      DynamoDBGroceryListRepository.delete sampleStore "mp1" = (false, sampleStore)) ∧
    (DynamoDBGroceryListRepository.exists_q sampleStore "mp1" = true →
      (DynamoDBGroceryListRepository.delete sampleStore "mp1").fst = true ∧
      DynamoDBGroceryListRepository.exists_q (DynamoDBGroceryListRepository.delete sampleStore "mp1").snd "mp1" = false)) :=
  ⟨⟨by decide, by decide, by decide⟩,
   c7_delete_exists sampleStore "mp1" (by decide) (by decide) (by decide)⟩

/-! ## C8 — get_active_by_user returns the unique active plan -/

/-- C8: when the user's partition query returns exactly two plans of which
exactly one is active, `get_active_by_user` returns that active plan —
whatever its position in store-returned order. -/
theorem c8_get_active_by_user (st : Store) (uid : String) (i1 i2 : Item)
    (p1 p2 : MealPlan)
    (hq : queryBeginsWith st ("USER#" ++ uid) "MEALPLAN#" = [i1, i2])
    (h1 : MealPlanMapper.from_dynamodb_item i1 = .ok p1)
    (h2 : MealPlanMapper.from_dynamodb_item i2 = .ok p2) :
    (p1.is_active = true → p2.is_active = false →
      DynamoDBMealPlanRepository.get_active_by_user st uid = .ok (some p1)) ∧
    (p1.is_active = false → p2.is_active = true →
      DynamoDBMealPlanRepository.get_active_by_user st uid = .ok (some p2)) := by
  constructor
  · intro ha1 _
    rw [DynamoDBMealPlanRepository.get_active_by_user, hq]
    simp [DynamoDBMealPlanRepository.firstActive, h1, ha1]
  · intro ha1 ha2
    rw [DynamoDBMealPlanRepository.get_active_by_user, hq]
    simp [DynamoDBMealPlanRepository.firstActive, h1, h2, ha1, ha2]

/-- An inactive plan for the same user as `samplePlan`. -/
def inactiveSamplePlan : MealPlan :=
  { samplePlan with id := "mp0", is_active := false }

/-- A store holding exactly two meal plans of user `u1`: the inactive
`mp0` first, the active `mp1` second. -/
def twoPlanStore : Store :=
  ⟨[MealPlanMapper.to_dynamodb_item inactiveSamplePlan "t",
    MealPlanMapper.to_dynamodb_item samplePlan "t"]⟩

/-- C8 witness: with the inactive plan ahead of the active one in
store-returned order, `get_active_by_user` skips it and returns the active
plan. -/
theorem c8_get_active_by_user_witness :
    (queryBeginsWith twoPlanStore ("USER#" ++ "u1") "MEALPLAN#" =
      [MealPlanMapper.to_dynamodb_item inactiveSamplePlan "t",
       MealPlanMapper.to_dynamodb_item samplePlan "t"] ∧
     MealPlanMapper.from_dynamodb_item (MealPlanMapper.to_dynamodb_item inactiveSamplePlan "t")
       = .ok inactiveSamplePlan ∧
     MealPlanMapper.from_dynamodb_item (MealPlanMapper.to_dynamodb_item samplePlan "t")
       = .ok samplePlan ∧
     inactiveSamplePlan.is_active = false ∧ samplePlan.is_active = true) ∧
    DynamoDBMealPlanRepository.get_active_by_user twoPlanStore "u1" = .ok (some samplePlan) :=
  ⟨⟨rfl, rfl, rfl, rfl, rfl⟩,
   (c8_get_active_by_user twoPlanStore "u1"
      (MealPlanMapper.to_dynamodb_item inactiveSamplePlan "t")
      (MealPlanMapper.to_dynamodb_item samplePlan "t")
      inactiveSamplePlan samplePlan rfl rfl rfl).2 rfl rfl⟩

end WFD
